import Mathlib

/-!
# Reference constructor of the NativeScript marshalling layer

A shallow embedding of `src/NativeScript/Marshalling/Reference/ReferenceConstructor.cpp`
and theorems about the host function `constructReference`.

Conventions of the embedding

* A native address (`void*`) is a natural number; `0` is `nullptr`.
* Script wrappers are values: a `PointerInstance` is the pair (address, adopted flag) it
  carries, a `RecordInstance` is the pointer it embeds, a `ReferenceInstance` is its inner
  type, its pointer and its own `value` property. Garbage-collector identity of wrappers is
  not represented.
* The native heap is a list of blocks (base address, bytes). The pending exception of the
  virtual machine is part of the state, as in JavaScriptCore: a host function always returns
  a value, and its caller looks at the pending exception to decide whether the call threw.
* `ExecState.calls` is a record of the collaborator calls (`calloc`, `write`) the host
  function made, in order. It is there to state which collaborators ran.
-/

namespace NativeScript

/-! ## Data model -/

/-- Modelled from the spec: the class `PointerInstance` is declared outside the sources;
the spec has a Memory Handle be a raw address plus an adopted flag. `data()` is the wrapped
address (`0` for `nullptr`), `isAdopted()` says whether the bridge must free it. -/
structure PointerInstance where
  data : Nat
  adopted : Bool
  deriving DecidableEq, Repr

/-- The accessor `PointerInstance::isAdopted()`. -/
def PointerInstance.isAdopted (p : PointerInstance) : Bool := p.adopted

/-- The mutator `PointerInstance::setAdopted(bool)`. -/
def PointerInstance.setAdopted (p : PointerInstance) (value : Bool) : PointerInstance :=
  { p with adopted := value }

mutual
/-- Script values, split by the dynamic classes `constructReference` tests for
(`jsDynamicCast<PointerInstance*>`, `jsDynamicCast<RecordInstance*>`,
`jsDynamicCast<ReferenceInstance*>`, `inherits(ReferenceTypeInstance::info())`).
`cell id` is an object of any other class, among them the other type objects. -/
inductive JSValue where
  | undefined
  | number (n : Int)
  | error (message : String)
  | cell (id : Nat)
  | referenceTypeInstance (innerType : JSValue)
  | pointerInstance (pointer : PointerInstance)
  | recordInstance (pointer : PointerInstance)
  | referenceInstance (reference : ReferenceInstance)
/-- Modelled from the spec: the class `ReferenceInstance` is declared outside the sources;
the spec has a Reference Instance carry a type (absent when none was supplied) and a
resolved Memory Handle or a deferred raw value. The fields are the inner type cell, the
pointer backing the reference (`pointer()`, absent while unresolved) and its `value`
property (the raw value an untyped reference was created with). -/
inductive ReferenceInstance where
  | mk (innerType : Option JSValue) (pointer : Option PointerInstance)
      (value : Option JSValue)
end

/-- The inner type cell of a reference, when it has one. -/
def ReferenceInstance.innerType : ReferenceInstance → Option JSValue
  | .mk t _ _ => t

/-- The accessor `ReferenceInstance::pointer()`: the backing pointer or `nullptr`. -/
def ReferenceInstance.pointer : ReferenceInstance → Option PointerInstance
  | .mk _ p _ => p

/-- The own property `value` of a reference, when it is set. -/
def ReferenceInstance.value : ReferenceInstance → Option JSValue
  | .mk _ _ v => v

/-- Modelled from the spec: the property read
`reference->get(execState, propertyNames().value)` goes through code outside the sources;
the spec has it yield the deferred value of the reference. It is `undefined` when no value
is stored. -/
def ReferenceInstance.get (reference : ReferenceInstance) : JSValue :=
  match reference.value with
  | some v => v
  | none => .undefined

/-- The test `maybeType.inherits(vm, ReferenceTypeInstance::info())`. -/
def JSValue.inheritsReferenceTypeInstance : JSValue → Bool
  | .referenceTypeInstance _ => true
  | _ => false

/-- Whether a script value is a `ReferenceInstance`. -/
def JSValue.isReferenceInstance : JSValue → Bool
  | .referenceInstance _ => true
  | _ => false

/-- The state of the virtual machine the constructor can touch: the native heap as a list
of blocks (base address, bytes), the number of bytes the allocator can still hand out, and
the pending exception. -/
structure VM where
  heap : List (Nat × List Nat)
  avail : Nat
  exception : Option JSValue

/-- The bytes of the block that starts at `address`, when there is one. -/
def VM.block (vm : VM) (address : Nat) : Option (List Nat) :=
  vm.heap.lookup address

/-- One past the highest address any block of the heap occupies. -/
def VM.top (vm : VM) : Nat :=
  (vm.heap.map fun b => b.1 + b.2.length).foldr max 0

/-- Modelled from the spec: the C library allocator is not part of the sources; the spec
describes it as `allocateZeroed(size) -> address`, failing only on resource exhaustion.
`calloc nmemb size` hands out a block of `nmemb * size` zero bytes above every block in use,
or returns `nullptr` (`0`) and leaves the heap alone when the request exceeds what is
available. -/
def VM.calloc (vm : VM) (nmemb size : Nat) : Nat × VM :=
  if nmemb * size ≤ vm.avail then
    (vm.top + 1,
      { vm with heap := (vm.top + 1, List.replicate (nmemb * size) 0) :: vm.heap,
                avail := vm.avail - nmemb * size })
  else (0, vm)

/-- Modelled from the spec: the struct `FFITypeMethodTable` is declared outside the
sources; the spec has a Type Descriptor carry the byte size of the type and the operations
`write(value, buffer, type)` and `read(buffer, type)`. Here they are `ffiType->size`,
`write(execState, value, buffer, self)` and `read(execState, buffer, self)`. Both receive
the virtual machine: `write` may change the heap and may leave an exception pending, which
is how it reports a value it rejects. -/
structure FFITypeMethodTable where
  size : Nat
  write : JSValue → Nat → JSValue → VM → VM
  read : Nat → JSValue → VM → JSValue

/-- A collaborator call made by the host function. -/
inductive Call where
  | calloc (nmemb size : Nat) (result : Nat)
  | write (value : JSValue) (buffer : Nat) (self : JSValue)

/-- The call frame of a host function: the arguments, the virtual machine, and the record
of collaborator calls made so far. -/
structure ExecState where
  arguments : List JSValue
  vm : VM
  calls : List Call

/-- The accessor `ExecState::argumentCount()`. -/
def ExecState.argumentCount (execState : ExecState) : Nat := execState.arguments.length

/-- The accessor `ExecState::argument(i)`: `undefined` past the end. -/
def ExecState.argument (execState : ExecState) (i : Nat) : JSValue :=
  execState.arguments.getD i .undefined

/-- The accessor `ExecState::uncheckedArgument(i)`. -/
def ExecState.uncheckedArgument (execState : ExecState) (i : Nat) : JSValue :=
  execState.arguments.getD i .undefined

/-- The call `calloc(nmemb, size)` made from a frame. -/
def ExecState.calloc (execState : ExecState) (nmemb size : Nat) : Nat × ExecState :=
  ((execState.vm.calloc nmemb size).1,
    { execState with
      vm := (execState.vm.calloc nmemb size).2
      calls := execState.calls ++ [Call.calloc nmemb size (execState.vm.calloc nmemb size).1] })

/-- The call `ffiTypeMethodTable->write(execState, value, buffer, self)` made from a
frame. -/
def ExecState.write (execState : ExecState) (table : FFITypeMethodTable)
    (value : JSValue) (buffer : Nat) (self : JSValue) : ExecState :=
  { execState with
    vm := table.write value buffer self execState.vm
    calls := execState.calls ++ [Call.write value buffer self] }

/-- Modelled from the spec: `Interop::pointerInstanceForPointer` is not part of the
sources; the spec has a Memory Handle wrap a raw address, with `adopted = false` by default
for an address that is supplied to it. -/
def pointerInstanceForPointer (handle : Nat) : PointerInstance :=
  { data := handle, adopted := false }

/-- Modelled from the spec: `ReferenceInstance::create(vm, globalObject, structure,
innerType, pointer)` is not part of the sources; the spec has a typed Reference Instance
pair its Type Descriptor with a resolved Memory Handle. -/
def ReferenceInstance.create (innerType : JSValue) (pointer : PointerInstance) :
    ReferenceInstance :=
  .mk (some innerType) (some pointer) none

/-- Modelled from the spec: `ReferenceInstance::create(vm, structure, value)` is not part
of the sources; the spec has an untyped Reference Instance hold the raw value as its
deferred value, with no type and no memory behind it. -/
def ReferenceInstance.createUntyped (value : JSValue) : ReferenceInstance :=
  .mk none none (some value)

/-- The message of the error thrown for a bad type argument (line 72). -/
def notAValidTypeMessage : String := "Not a valid type object is passed as parameter."

/-- The call `createError(execState, message)`. -/
def createError (message : String) : JSValue := .error message

/-- The call `throwVMError(execState, scope, error)` of JavaScriptCore: the error becomes
the pending exception and its encoding is what the host function returns. -/
def throwVMError (execState : ExecState) (error : JSValue) : JSValue × ExecState :=
  (error, { execState with vm := { execState.vm with exception := some error } })

/-! ## The host function -/

/-- What lines 36–56 leave in the locals `handle`, `adopted` and `value`. -/
structure Initializer where
  handle : Nat
  adopted : Bool
  value : JSValue

/-- Lines 36–37 and 41–56 of `constructReference`: starting from `handle = nullptr`,
`adopted = true`, the chain of dynamic casts over the second argument. -/
def resolveInitializer (maybeType value : JSValue) : Initializer :=
  match value with
  | .pointerInstance pointer =>
      { handle := pointer.data, adopted := pointer.isAdopted, value := value }
  | .recordInstance pointer =>
      { handle := pointer.data, adopted := pointer.isAdopted, value := value }
  | .referenceInstance reference =>
      if maybeType.inheritsReferenceTypeInstance then
        -- do nothing, this is a reference to reference
        { handle := 0, adopted := true, value := value }
      else
        match reference.pointer with
        | some pointer =>
            { handle := pointer.data, adopted := pointer.isAdopted, value := value }
        | none =>
            { handle := 0, adopted := true, value := reference.get }
  | _ => { handle := 0, adopted := true, value := value }

/-- Lines 66–68: wrap the handle in a pointer instance, set its adopted flag, and create
the typed reference. -/
def wrapHandle (maybeType : JSValue) (handle : Nat) (adopted : Bool) : JSValue :=
  .referenceInstance
    (ReferenceInstance.create maybeType ((pointerInstanceForPointer handle).setAdopted adopted))

/-- The host function `constructReference` (lines 28–78). The type lookup
`tryGetFFITypeMethodTable` is a collaborator and is taken as a parameter. The result is the
value the function returns together with the frame it leaves behind. -/
def constructReference (tryGetFFITypeMethodTable : JSValue → Option FFITypeMethodTable)
    (execState : ExecState) : JSValue × ExecState :=
  match tryGetFFITypeMethodTable (execState.argument 0) with
  | some ffiTypeMethodTable =>
      if execState.argumentCount = 2 then
        if (resolveInitializer (execState.argument 0) (execState.uncheckedArgument 1)).handle
            = 0 then
          (wrapHandle (execState.argument 0)
              (execState.calloc ffiTypeMethodTable.size 1).1
              (resolveInitializer (execState.argument 0)
                (execState.uncheckedArgument 1)).adopted,
            (execState.calloc ffiTypeMethodTable.size 1).2.write ffiTypeMethodTable
              (resolveInitializer (execState.argument 0) (execState.uncheckedArgument 1)).value
              (execState.calloc ffiTypeMethodTable.size 1).1
              (execState.argument 0))
        else
          (wrapHandle (execState.argument 0)
              (resolveInitializer (execState.argument 0) (execState.uncheckedArgument 1)).handle
              (resolveInitializer (execState.argument 0)
                (execState.uncheckedArgument 1)).adopted,
            execState)
      else
        (wrapHandle (execState.argument 0) (execState.calloc ffiTypeMethodTable.size 1).1 true,
          (execState.calloc ffiTypeMethodTable.size 1).2)
  | none =>
      if execState.argumentCount = 2 then
        throwVMError execState (createError notAValidTypeMessage)
      else
        (.referenceInstance (ReferenceInstance.createUntyped (execState.argument 0)), execState)

/-- A host function as JavaScriptCore stores it in `CallData` and `ConstructData`. -/
abbrev NativeFunction := ExecState → JSValue × ExecState

/-- The method `ReferenceConstructor::getConstructData` (lines 80–83): the function run
for a call with new. -/
def ReferenceConstructor.getConstructData
    (tryGetFFITypeMethodTable : JSValue → Option FFITypeMethodTable) : NativeFunction :=
  constructReference tryGetFFITypeMethodTable

/-- The method `ReferenceConstructor::getCallData` (lines 85–88): the function run for a
direct call. -/
def ReferenceConstructor.getCallData
    (tryGetFFITypeMethodTable : JSValue → Option FFITypeMethodTable) : NativeFunction :=
  constructReference tryGetFFITypeMethodTable

/-- How a script caller sees a host call. The protocol is JavaScriptCore's and lies outside
the sources: when the host function returns with an exception pending, the call throws
that exception and the returned value is dropped; otherwise the call yields the returned
value. -/
def callHostFunction (function : NativeFunction) (execState : ExecState) :
    Except JSValue JSValue :=
  match (function execState).2.vm.exception with
  | some e => .error e
  | none => .ok (function execState).1

/-- The script-level construction `new Reference(arguments...)` on a virtual machine. -/
def construct (tryGetFFITypeMethodTable : JSValue → Option FFITypeMethodTable)
    (vm : VM) (arguments : List JSValue) : Except JSValue JSValue :=
  callHostFunction (ReferenceConstructor.getConstructData tryGetFFITypeMethodTable)
    { arguments := arguments, vm := vm, calls := [] }

/-- The script-level direct call `Reference(arguments...)` on a virtual machine. -/
def call (tryGetFFITypeMethodTable : JSValue → Option FFITypeMethodTable)
    (vm : VM) (arguments : List JSValue) : Except JSValue JSValue :=
  callHostFunction (ReferenceConstructor.getCallData tryGetFFITypeMethodTable)
    { arguments := arguments, vm := vm, calls := [] }

/-- The pointer backing a returned value, when the value is a reference that has one. -/
def JSValue.referencePointer : JSValue → Option PointerInstance
  | .referenceInstance reference => reference.pointer
  | _ => none

/-! ## A small registry of types, to run the host function on -/

namespace Sample

/-- Overwrite the bytes of every block that starts at `address`. -/
def store (vm : VM) (address : Nat) (bytes : List Nat) : VM :=
  { vm with heap := vm.heap.map fun b => if b.1 = address then (b.1, bytes) else b }

/-- The message of the exception the sample types throw for a value they cannot encode. -/
def rejectMessage : String := "The value cannot be marshalled to this type."

/-- Leave the rejection pending as the exception. -/
def reject (vm : VM) : VM :=
  { vm with exception := some (JSValue.error rejectMessage) }

/-- A one-byte unsigned integer type: encodes the numbers 0..255, rejects everything
else. -/
def byteType : FFITypeMethodTable where
  size := 1
  write := fun value buffer _ vm =>
    match value with
    | .number (.ofNat k) => if k < 256 then store vm buffer [k] else reject vm
    | _ => reject vm
  read := fun buffer _ vm =>
    match vm.block buffer with
    | some [k] => .number (.ofNat k)
    | _ => .undefined

/-- A pointer type on a machine with one-byte addresses: encodes an unadopted pointer
wrapper as its address, rejects everything else. -/
def pointerType : FFITypeMethodTable where
  size := 1
  write := fun value buffer _ vm =>
    match value with
    | .pointerInstance p =>
        if p.data < 256 ∧ p.adopted = false then store vm buffer [p.data] else reject vm
    | _ => reject vm
  read := fun buffer _ vm =>
    match vm.block buffer with
    | some [k] => .pointerInstance { data := k, adopted := false }
    | _ => .undefined

/-- A reference type: encodes a reference as the address of its pointer (zero while it has
none), rejects everything else. -/
def referenceType : FFITypeMethodTable where
  size := 1
  write := fun value buffer _ vm =>
    match value with
    | .referenceInstance r =>
        match r.pointer with
        | some p => store vm buffer [p.data]
        | none => store vm buffer [0]
    | _ => reject vm
  read := fun _ _ _ => .undefined

/-- The type object of `byteType`. -/
def byteCell : JSValue := .cell 1

/-- The type object of `pointerType`. -/
def pointerCell : JSValue := .cell 2

/-- The type object of `referenceType`: a reference to a byte. -/
def referenceCell : JSValue := .referenceTypeInstance (.cell 1)

/-- The type lookup of the sample registry. -/
def registry : JSValue → Option FFITypeMethodTable
  | .cell 1 => some byteType
  | .cell 2 => some pointerType
  | .referenceTypeInstance (.cell 1) => some referenceType
  | _ => none

/-- A virtual machine with one native block, the byte 9 at address 7, room for 64 more
bytes and no exception pending. -/
def vm0 : VM := { heap := [(7, [9])], avail := 64, exception := none }

/-- The null pointer wrapper, not adopted. -/
def nullPointer : PointerInstance := { data := 0, adopted := false }

/-- The frame of the call `Reference(pointerCell, nullPointer)` on `vm0`. -/
def nullPointerFrame : ExecState :=
  { arguments := [pointerCell, .pointerInstance nullPointer], vm := vm0, calls := [] }

/-- The frame of the call `Reference(1, 2, 3)` on `vm0`. -/
def threeNumbersFrame : ExecState :=
  { arguments := [.number 1, .number 2, .number 3], vm := vm0, calls := [] }

/-- The frame of the call `Reference(byteCell, record)` for a record whose pointer is
null. -/
def nullRecordFrame : ExecState :=
  { arguments := [byteCell, .recordInstance { data := 0, adopted := true }],
    vm := vm0, calls := [] }

/-- A typed reference whose pointer has the null address. -/
def nullReference : ReferenceInstance :=
  .mk (some byteCell) (some { data := 0, adopted := true }) none

/-- The frame of the call `Reference(byteCell, nullReference)`. -/
def nullReferenceFrame : ExecState :=
  { arguments := [byteCell, .referenceInstance nullReference], vm := vm0, calls := [] }

/-- The frame of the call `Reference(pointerCell, pointer to 7)`. -/
def pointerToSevenFrame : ExecState :=
  { arguments := [pointerCell, .pointerInstance { data := 7, adopted := false }],
    vm := vm0, calls := [] }

/-- An untyped reference that holds the number 5 and has no pointer. -/
def unresolvedReference : ReferenceInstance :=
  .mk none none (some (.number 5))

/-- A byte reference backed by address 7. -/
def referenceToSeven : ReferenceInstance :=
  .mk (some byteCell) (some { data := 7, adopted := false }) none

/-- The frame of the call `Reference(referenceCell, referenceToSeven)`. -/
def referenceToReferenceFrame : ExecState :=
  { arguments := [referenceCell, .referenceInstance referenceToSeven], vm := vm0, calls := [] }

end Sample

/-- The read operation of a descriptor inverts its write operation on a buffer of `size`
bytes: whenever `write` is given a block of `size` bytes and leaves no exception pending,
`read` on that block returns the value written. -/
def ReadInvertsWrite (table : FFITypeMethodTable) (self : JSValue) : Prop :=
  ∀ (vm : VM) (buffer : Nat) (bytes : List Nat) (x : JSValue),
    vm.block buffer = some bytes → bytes.length = table.size →
    (table.write x buffer self vm).exception = none →
    table.read buffer self (table.write x buffer self vm) = x

/-! ## Facts about the heap -/

theorem lookup_eq_none_of_lt (k : Nat) (l : List (Nat × List Nat))
    (h : ∀ b ∈ l, b.1 < k) : l.lookup k = none := by
  induction l with
  | nil => rfl
  | cons b t ih =>
    have hb : b.1 < k := h b (List.mem_cons_self _ _)
    have ht : ∀ c ∈ t, c.1 < k := fun c hc => h c (List.mem_cons_of_mem _ hc)
    obtain ⟨a, bytes⟩ := b
    have hne : (k == a) = false := by
      simp only [beq_eq_false_iff_ne, ne_eq]
      simp only at hb
      omega
    simp [List.lookup, hne, ih ht]

theorem block_end_le_top (vm : VM) : ∀ b ∈ vm.heap, b.1 + b.2.length ≤ vm.top := by
  unfold VM.top
  induction vm.heap with
  | nil => intro b hb; cases hb
  | cons c t ih =>
    intro b hb
    simp only [List.map_cons, List.foldr_cons]
    rcases List.mem_cons.mp hb with rfl | hb
    · exact le_max_left _ _
    · exact le_trans (ih b hb) (le_max_right _ _)

/-- No block of the heap starts at the address the allocator hands out next. -/
theorem block_above_top (vm : VM) : vm.block (vm.top + 1) = none := by
  apply lookup_eq_none_of_lt
  intro b hb
  have := block_end_le_top vm b hb
  omega

theorem calloc_fst_of_le (vm : VM) (nmemb size : Nat) (h : nmemb * size ≤ vm.avail) :
    (vm.calloc nmemb size).1 = vm.top + 1 := by
  simp [VM.calloc, h]

theorem calloc_le_of_ne_zero (vm : VM) (nmemb size : Nat)
    (h : (vm.calloc nmemb size).1 ≠ 0) : nmemb * size ≤ vm.avail := by
  by_contra hc
  simp [VM.calloc, hc] at h

/-- After a successful `calloc` the new block is there, all zero. -/
theorem calloc_block (vm : VM) (nmemb size : Nat) (h : (vm.calloc nmemb size).1 ≠ 0) :
    (vm.calloc nmemb size).2.block (vm.calloc nmemb size).1
      = some (List.replicate (nmemb * size) 0) := by
  have hle := calloc_le_of_ne_zero vm nmemb size h
  simp [VM.calloc, hle, VM.block, List.lookup]

/-- The address of a successful `calloc` was not the start of a block before. -/
theorem calloc_fresh (vm : VM) (nmemb size : Nat) (h : (vm.calloc nmemb size).1 ≠ 0) :
    vm.block (vm.calloc nmemb size).1 = none := by
  rw [calloc_fst_of_le vm nmemb size (calloc_le_of_ne_zero vm nmemb size h)]
  exact block_above_top vm

theorem calloc_exception (vm : VM) (nmemb size : Nat) :
    (vm.calloc nmemb size).2.exception = vm.exception := by
  unfold VM.calloc
  split <;> rfl

theorem lookup_map_store (address : Nat) (bytes : List Nat) (l : List (Nat × List Nat))
    (old : List Nat) (h : l.lookup address = some old) :
    (l.map fun b => if b.1 = address then (b.1, bytes) else b).lookup address
      = some bytes := by
  induction l with
  | nil => simp [List.lookup] at h
  | cons b t ih =>
    obtain ⟨a, c⟩ := b
    rw [List.map_cons]
    by_cases hab : a = address
    · subst hab
      rw [if_pos rfl, List.lookup_cons]
      simp
    · have hne : (address == a) = false := by
        simp only [beq_eq_false_iff_ne, ne_eq]
        exact fun h => hab h.symm
      rw [List.lookup_cons, hne] at h
      rw [if_neg hab, List.lookup_cons, hne]
      exact ih h

/-- Storing into a block that is there makes the block read back as the stored bytes. -/
theorem store_block (vm : VM) (address : Nat) (old bytes : List Nat)
    (h : vm.block address = some old) :
    (Sample.store vm address bytes).block address = some bytes :=
  lookup_map_store address bytes vm.heap old h

/-- The sample pointer type reads back what it wrote. -/
theorem pointerType_readInvertsWrite :
    ReadInvertsWrite Sample.pointerType Sample.pointerCell := by
  intro vm buffer bytes x hblock _ hacc
  cases x with
  | pointerInstance p =>
    by_cases hp : p.data < 256 ∧ p.adopted = false
    · obtain ⟨d, ad⟩ := p
      obtain ⟨hd, had⟩ := hp
      simp only at hd had
      subst had
      simp [Sample.pointerType, hd, store_block vm buffer bytes _ hblock]
    · simp [Sample.pointerType, hp, Sample.reject] at hacc
  | _ => simp [Sample.pointerType, Sample.reject] at hacc

/-- The sample byte type reads back what it wrote. -/
theorem byteType_readInvertsWrite :
    ReadInvertsWrite Sample.byteType Sample.byteCell := by
  intro vm buffer bytes x hblock _ hacc
  cases x with
  | number n =>
    cases n with
    | ofNat k =>
      by_cases hk : k < 256
      · simp [Sample.byteType, hk, store_block vm buffer bytes _ hblock]
      · simp [Sample.byteType, hk, Sample.reject] at hacc
    | negSucc k => simp [Sample.byteType, Sample.reject] at hacc
  | _ => simp [Sample.byteType, Sample.reject] at hacc

/-! ## The claims -/

/-- C1, as stated, fails: for the registered pointer type and the null pointer wrapper the
constructor allocates a block at address 9 and backs the reference with it, so the address
of the result is not the (null) address of the wrapper and storage was allocated. -/
theorem aliasing_precedence_fails_at_null :
    Sample.registry Sample.pointerCell = some Sample.pointerType
    ∧ (constructReference Sample.registry Sample.nullPointerFrame).1.referencePointer
        = some { data := 9, adopted := false }
    ∧ (9 : Nat) ≠ Sample.nullPointer.data
    ∧ (constructReference Sample.registry Sample.nullPointerFrame).2.vm.heap
        = (9, [0]) :: Sample.vm0.heap
    ∧ (constructReference Sample.registry Sample.nullPointerFrame).2.calls
        = [Call.calloc 1 1 9,
            Call.write (.pointerInstance Sample.nullPointer) 9 Sample.pointerCell] := by
  refine ⟨rfl, rfl, by decide, rfl, rfl⟩

/-- C1, amended: for every type `T` that resolves to a descriptor and every pointer wrapper
`p` whose address is not null, the 2-argument call returns a reference of type `T` whose
pointer has the address of `p` and the adoption flag of `p`; the frame is left as it was
(no allocation, no write, no exception raised), and to a script caller without a pending
exception the call yields that reference. -/
theorem aliasing_precedence (tryGet : JSValue → Option FFITypeMethodTable)
    (table : FFITypeMethodTable) (T : JSValue) (p : PointerInstance) (vm : VM)
    (calls : List Call) (hT : tryGet T = some table) (hp : p.data ≠ 0) :
    (constructReference tryGet ⟨[T, .pointerInstance p], vm, calls⟩).1
        = .referenceInstance (.mk (some T) (some { data := p.data, adopted := p.isAdopted }) none)
    ∧ (constructReference tryGet ⟨[T, .pointerInstance p], vm, calls⟩).2
        = ⟨[T, .pointerInstance p], vm, calls⟩
    ∧ (vm.exception = none →
        construct tryGet vm [T, .pointerInstance p]
          = .ok (.referenceInstance
              (.mk (some T) (some { data := p.data, adopted := p.isAdopted }) none))) := by
  have key : ∀ cs : List Call, constructReference tryGet ⟨[T, .pointerInstance p], vm, cs⟩
      = (.referenceInstance (.mk (some T) (some { data := p.data, adopted := p.isAdopted }) none),
          ⟨[T, .pointerInstance p], vm, cs⟩) := by
    intro cs
    simp [constructReference, ExecState.argument, ExecState.argumentCount,
      ExecState.uncheckedArgument, hT, resolveInitializer, hp, wrapHandle,
      ReferenceInstance.create, pointerInstanceForPointer, PointerInstance.setAdopted]
  refine ⟨by rw [key], by rw [key], ?_⟩
  intro hvm
  simp [construct, callHostFunction, ReferenceConstructor.getConstructData, key, hvm]

/-- C1, amended, at the byte type and the pointer to address 7. -/
theorem aliasing_precedence_witness :
    (constructReference Sample.registry
        ⟨[Sample.byteCell, .pointerInstance ⟨7, true⟩], Sample.vm0, []⟩).1
        = .referenceInstance (.mk (some Sample.byteCell) (some { data := 7, adopted := true }) none)
    ∧ (constructReference Sample.registry
        ⟨[Sample.byteCell, .pointerInstance ⟨7, true⟩], Sample.vm0, []⟩).2
        = ⟨[Sample.byteCell, .pointerInstance ⟨7, true⟩], Sample.vm0, []⟩
    ∧ (Sample.vm0.exception = none →
        construct Sample.registry Sample.vm0 [Sample.byteCell, .pointerInstance ⟨7, true⟩]
          = .ok (.referenceInstance
              (.mk (some Sample.byteCell) (some { data := 7, adopted := true }) none))) :=
  aliasing_precedence Sample.registry Sample.byteType Sample.byteCell ⟨7, true⟩ Sample.vm0 []
    rfl (by decide)

/-- C2, as stated, fails: with three arguments a second argument is present and the first,
the number 1, is no type, yet the call throws nothing and yields an untyped reference that
holds 1. -/
theorem invalid_type_with_value_fails_at_three_arguments :
    Sample.registry (.number 1) = none
    ∧ (constructReference Sample.registry Sample.threeNumbersFrame).2.vm.exception = none
    ∧ construct Sample.registry Sample.vm0 [.number 1, .number 2, .number 3]
        = .ok (.referenceInstance (.mk none none (some (.number 1)))) := by
  refine ⟨rfl, rfl, rfl⟩

/-- C2, amended: for every call with exactly two arguments whose first argument does not
resolve to a descriptor, the host function leaves the error "Not a valid type object is
passed as parameter." pending as the exception, returns that error and not a reference,
touches neither the heap nor the collaborators, and the script caller sees the call throw
that error. -/
theorem invalid_type_with_value_rejected (tryGet : JSValue → Option FFITypeMethodTable)
    (x y : JSValue) (vm : VM) (calls : List Call) (hx : tryGet x = none) :
    (constructReference tryGet ⟨[x, y], vm, calls⟩).1
        = .error "Not a valid type object is passed as parameter."
    ∧ (constructReference tryGet ⟨[x, y], vm, calls⟩).1.isReferenceInstance = false
    ∧ (constructReference tryGet ⟨[x, y], vm, calls⟩).2
        = ⟨[x, y],
            { vm with exception
                := some (.error "Not a valid type object is passed as parameter.") },
            calls⟩
    ∧ construct tryGet vm [x, y]
        = .error (.error "Not a valid type object is passed as parameter.") := by
  have key : ∀ cs : List Call, constructReference tryGet ⟨[x, y], vm, cs⟩
      = (.error "Not a valid type object is passed as parameter.",
          ⟨[x, y],
            { vm with exception
                := some (.error "Not a valid type object is passed as parameter.") },
            cs⟩) := by
    intro cs
    simp [constructReference, ExecState.argument, ExecState.argumentCount, hx, throwVMError,
      createError, notAValidTypeMessage]
  refine ⟨by rw [key], by rw [key]; rfl, by rw [key], ?_⟩
  simp [construct, callHostFunction, ReferenceConstructor.getConstructData, key]

/-- C2, amended, at the call `Reference(1, 2)` on the sample registry. -/
theorem invalid_type_with_value_rejected_witness :
    (constructReference Sample.registry ⟨[.number 1, .number 2], Sample.vm0, []⟩).1
        = .error "Not a valid type object is passed as parameter."
    ∧ (constructReference Sample.registry
        ⟨[.number 1, .number 2], Sample.vm0, []⟩).1.isReferenceInstance = false
    ∧ (constructReference Sample.registry ⟨[.number 1, .number 2], Sample.vm0, []⟩).2
        = ⟨[.number 1, .number 2],
            ⟨Sample.vm0.heap, Sample.vm0.avail,
              some (.error "Not a valid type object is passed as parameter.")⟩,
            []⟩
    ∧ construct Sample.registry Sample.vm0 [.number 1, .number 2]
        = .error (.error "Not a valid type object is passed as parameter.") :=
  invalid_type_with_value_rejected Sample.registry (.number 1) (.number 2) Sample.vm0 [] rfl

/-- C3: for every value `x` that does not resolve to a descriptor, the 1-argument call
returns an untyped reference (no type, no pointer) whose stored value is `x` and leaves the
frame as it was: no allocation, no write, no exception; the script caller gets that
reference. -/
theorem untyped_placeholder (tryGet : JSValue → Option FFITypeMethodTable)
    (x : JSValue) (vm : VM) (calls : List Call) (hx : tryGet x = none)
    (hvm : vm.exception = none) :
    constructReference tryGet ⟨[x], vm, calls⟩
        = (.referenceInstance (.mk none none (some x)), ⟨[x], vm, calls⟩)
    ∧ construct tryGet vm [x] = .ok (.referenceInstance (.mk none none (some x))) := by
  have key : ∀ cs : List Call, constructReference tryGet ⟨[x], vm, cs⟩
      = (.referenceInstance (.mk none none (some x)), ⟨[x], vm, cs⟩) := by
    intro cs
    simp [constructReference, ExecState.argument, ExecState.argumentCount, hx,
      ReferenceInstance.createUntyped]
  refine ⟨key calls, ?_⟩
  simp [construct, callHostFunction, ReferenceConstructor.getConstructData, key, hvm]

/-- C3 at the call `Reference(5)` on the sample registry. -/
theorem untyped_placeholder_witness :
    constructReference Sample.registry ⟨[.number 5], Sample.vm0, []⟩
        = (.referenceInstance (.mk none none (some (.number 5))),
            ⟨[.number 5], Sample.vm0, []⟩)
    ∧ construct Sample.registry Sample.vm0 [.number 5]
        = .ok (.referenceInstance (.mk none none (some (.number 5)))) :=
  untyped_placeholder Sample.registry (.number 5) Sample.vm0 [] rfl rfl

/-- C4: for every type `T` that resolves to a descriptor, when `calloc` returns storage the
1-argument call returns a reference of type `T` whose pointer is adopted and has the
address `calloc` returned; at that address, where no block started before, the heap now
has a block of exactly `size` bytes, all zero, in front of the blocks it had; the only
collaborator call made is that `calloc`, so `write` is not invoked. -/
theorem zero_initialization (tryGet : JSValue → Option FFITypeMethodTable)
    (table : FFITypeMethodTable) (T : JSValue) (vm : VM) (calls : List Call)
    (hT : tryGet T = some table) (halloc : (vm.calloc table.size 1).1 ≠ 0) :
    (constructReference tryGet ⟨[T], vm, calls⟩).1
        = .referenceInstance (.mk (some T)
            (some { data := (vm.calloc table.size 1).1, adopted := true }) none)
    ∧ (constructReference tryGet ⟨[T], vm, calls⟩).2.vm.heap
        = ((vm.calloc table.size 1).1, List.replicate table.size 0) :: vm.heap
    ∧ (constructReference tryGet ⟨[T], vm, calls⟩).2.vm.block (vm.calloc table.size 1).1
        = some (List.replicate table.size 0)
    ∧ vm.block (vm.calloc table.size 1).1 = none
    ∧ (constructReference tryGet ⟨[T], vm, calls⟩).2.vm.exception = vm.exception
    ∧ (constructReference tryGet ⟨[T], vm, calls⟩).2.calls
        = calls ++ [Call.calloc table.size 1 (vm.calloc table.size 1).1]
    ∧ (vm.exception = none →
        construct tryGet vm [T]
          = .ok (.referenceInstance (.mk (some T)
              (some { data := (vm.calloc table.size 1).1, adopted := true }) none))) := by
  have key : ∀ cs : List Call, constructReference tryGet ⟨[T], vm, cs⟩
      = (.referenceInstance (.mk (some T)
            (some { data := (vm.calloc table.size 1).1, adopted := true }) none),
          ⟨[T], (vm.calloc table.size 1).2,
            cs ++ [Call.calloc table.size 1 (vm.calloc table.size 1).1]⟩) := by
    intro cs
    simp [constructReference, ExecState.argument, ExecState.argumentCount, hT, wrapHandle,
      ReferenceInstance.create, pointerInstanceForPointer, PointerInstance.setAdopted,
      ExecState.calloc]
  have hle := calloc_le_of_ne_zero vm table.size 1 halloc
  have hblock := calloc_block vm table.size 1 halloc
  rw [Nat.mul_one] at hblock
  refine ⟨by rw [key], ?_, by rw [key]; exact hblock, calloc_fresh vm table.size 1 halloc,
    by rw [key]; exact calloc_exception vm table.size 1, by rw [key], ?_⟩
  · have hle1 : table.size ≤ vm.avail := by simpa using hle
    rw [key]
    simp [VM.calloc, hle1]
  · intro hvm
    simp [construct, callHostFunction, ReferenceConstructor.getConstructData, key,
      calloc_exception, hvm]

/-- C4 at the byte type on `vm0`: the storage is the one zero byte at address 9. -/
theorem zero_initialization_witness :
    (constructReference Sample.registry ⟨[Sample.byteCell], Sample.vm0, []⟩).1
        = .referenceInstance (.mk (some Sample.byteCell)
            (some { data := (Sample.vm0.calloc Sample.byteType.size 1).1, adopted := true })
            none)
    ∧ (constructReference Sample.registry ⟨[Sample.byteCell], Sample.vm0, []⟩).2.vm.heap
        = ((Sample.vm0.calloc Sample.byteType.size 1).1,
            List.replicate Sample.byteType.size 0) :: Sample.vm0.heap
    ∧ (constructReference Sample.registry ⟨[Sample.byteCell], Sample.vm0, []⟩).2.vm.block
          (Sample.vm0.calloc Sample.byteType.size 1).1
        = some (List.replicate Sample.byteType.size 0)
    ∧ Sample.vm0.block (Sample.vm0.calloc Sample.byteType.size 1).1 = none
    ∧ (constructReference Sample.registry ⟨[Sample.byteCell], Sample.vm0, []⟩).2.vm.exception
        = Sample.vm0.exception
    ∧ (constructReference Sample.registry ⟨[Sample.byteCell], Sample.vm0, []⟩).2.calls
        = [] ++ [Call.calloc Sample.byteType.size 1
            (Sample.vm0.calloc Sample.byteType.size 1).1]
    ∧ (Sample.vm0.exception = none →
        construct Sample.registry Sample.vm0 [Sample.byteCell]
          = .ok (.referenceInstance (.mk (some Sample.byteCell)
              (some { data := (Sample.vm0.calloc Sample.byteType.size 1).1, adopted := true })
              none))) :=
  zero_initialization Sample.registry Sample.byteType Sample.byteCell Sample.vm0 [] rfl
    (by decide)

/-- C5 on the code: for the registered pointer type and the null pointer wrapper, which is
not adopted, the call succeeds, `calloc` is called and returns address 9 where no block
started before, no address of the wrapper is reused, and the pointer of the returned
reference is not adopted. -/
theorem fresh_storage_not_adopted_at_null_pointer :
    construct Sample.registry Sample.vm0 [Sample.pointerCell, .pointerInstance Sample.nullPointer]
        = .ok (.referenceInstance (.mk (some Sample.pointerCell)
            (some { data := 9, adopted := false }) none))
    ∧ (constructReference Sample.registry Sample.nullPointerFrame).2.calls.head?
        = some (Call.calloc 1 1 9)
    ∧ Sample.vm0.block 9 = none
    ∧ (constructReference Sample.registry Sample.nullPointerFrame).2.vm.block 9 = some [0]
    ∧ ((constructReference Sample.registry Sample.nullPointerFrame).1.referencePointer.map
        PointerInstance.isAdopted) = some false := by
  refine ⟨rfl, rfl, rfl, rfl, rfl⟩

/-- What the host function does when no address is reused in a 2-argument call with a
valid type: one `calloc`, one `write` of the resolved value into the returned buffer, and
a reference on that buffer whose flag is the resolved one. -/
theorem constructReference_encode (tryGet : JSValue → Option FFITypeMethodTable)
    (table : FFITypeMethodTable) (T v : JSValue) (vm : VM) (calls : List Call)
    (hT : tryGet T = some table) (hfresh : (resolveInitializer T v).handle = 0) :
    constructReference tryGet ⟨[T, v], vm, calls⟩
      = (.referenceInstance (.mk (some T)
            (some { data := (vm.calloc table.size 1).1,
                    adopted := (resolveInitializer T v).adopted }) none),
          ⟨[T, v],
            table.write (resolveInitializer T v).value (vm.calloc table.size 1).1 T
              (vm.calloc table.size 1).2,
            calls ++ [Call.calloc table.size 1 (vm.calloc table.size 1).1,
              Call.write (resolveInitializer T v).value (vm.calloc table.size 1).1 T]⟩) := by
  simp [constructReference, ExecState.argument, ExecState.argumentCount,
    ExecState.uncheckedArgument, hT, hfresh, wrapHandle, ReferenceInstance.create,
    pointerInstanceForPointer, PointerInstance.setAdopted, ExecState.calloc, ExecState.write]

/-- What the host function does when an address is reused in a 2-argument call with a valid
type: it returns a reference on that address with the resolved flag and leaves the frame
as it was. -/
theorem constructReference_alias (tryGet : JSValue → Option FFITypeMethodTable)
    (table : FFITypeMethodTable) (T v : JSValue) (vm : VM) (calls : List Call)
    (hT : tryGet T = some table) (halias : (resolveInitializer T v).handle ≠ 0) :
    constructReference tryGet ⟨[T, v], vm, calls⟩
      = (.referenceInstance (.mk (some T)
            (some { data := (resolveInitializer T v).handle,
                    adopted := (resolveInitializer T v).adopted }) none),
          ⟨[T, v], vm, calls⟩) := by
  simp [constructReference, ExecState.argument, ExecState.argumentCount,
    ExecState.uncheckedArgument, hT, halias, wrapHandle, ReferenceInstance.create,
    pointerInstanceForPointer, PointerInstance.setAdopted]

/-- C6: for every type `T` that resolves to a descriptor and every value `v`, when the
write the constructor performs (on the buffer `calloc` returned, with the resolved value,
which happens when no address is reused) leaves the exception `e` pending, the script
caller sees the call throw `e` and gets no reference: the host function made exactly the
`calloc` and that `write`, `e` is still pending when it returns, and so the value it
returns is dropped. -/
theorem encode_failure_is_atomic (tryGet : JSValue → Option FFITypeMethodTable)
    (table : FFITypeMethodTable) (T v e : JSValue) (vm : VM)
    (hT : tryGet T = some table) (hfresh : (resolveInitializer T v).handle = 0)
    (hfail : (table.write (resolveInitializer T v).value (vm.calloc table.size 1).1 T
        (vm.calloc table.size 1).2).exception = some e) :
    construct tryGet vm [T, v] = .error e
    ∧ (constructReference tryGet ⟨[T, v], vm, []⟩).2.vm.exception = some e
    ∧ (constructReference tryGet ⟨[T, v], vm, []⟩).2.calls
        = [Call.calloc table.size 1 (vm.calloc table.size 1).1,
            Call.write (resolveInitializer T v).value (vm.calloc table.size 1).1 T] := by
  have key := constructReference_encode tryGet table T v vm [] hT hfresh
  have hthrow : construct tryGet vm [T, v] = .error e := by
    simp [construct, callHostFunction, ReferenceConstructor.getConstructData, key, hfail]
  exact ⟨hthrow, by rw [key]; exact hfail, by rw [key]; rfl⟩

/-- C6 at the byte type and a value it rejects, the object `cell 5`. -/
theorem encode_failure_is_atomic_witness :
    construct Sample.registry Sample.vm0 [Sample.byteCell, .cell 5]
        = .error (.error Sample.rejectMessage)
    ∧ (constructReference Sample.registry
        ⟨[Sample.byteCell, .cell 5], Sample.vm0, []⟩).2.vm.exception
        = some (.error Sample.rejectMessage)
    ∧ (constructReference Sample.registry ⟨[Sample.byteCell, .cell 5], Sample.vm0, []⟩).2.calls
        = [Call.calloc Sample.byteType.size 1 (Sample.vm0.calloc Sample.byteType.size 1).1,
            Call.write (resolveInitializer Sample.byteCell (.cell 5)).value
              (Sample.vm0.calloc Sample.byteType.size 1).1 Sample.byteCell] :=
  encode_failure_is_atomic Sample.registry Sample.byteType Sample.byteCell (.cell 5)
    (.error Sample.rejectMessage) Sample.vm0 rfl rfl rfl

/-- C7, as stated, fails: the sample pointer type reads back what it writes, and its write
accepts the pointer to address 7, yet the reference constructed from that pointer is
backed by address 7 itself, where the byte 9 is, so reading it back yields the pointer to
address 9 and not the pointer to address 7. -/
theorem round_trip_fails_for_aliased_pointer :
    Sample.registry Sample.pointerCell = some Sample.pointerType
    ∧ ReadInvertsWrite Sample.pointerType Sample.pointerCell
    ∧ (Sample.pointerType.write (.pointerInstance { data := 7, adopted := false })
        (Sample.vm0.calloc 1 1).1 Sample.pointerCell (Sample.vm0.calloc 1 1).2).exception = none
    ∧ (constructReference Sample.registry Sample.pointerToSevenFrame).1.referencePointer
        = some { data := 7, adopted := false }
    ∧ (constructReference Sample.registry Sample.pointerToSevenFrame).2.calls = []
    ∧ Sample.pointerType.read 7 Sample.pointerCell
        (constructReference Sample.registry Sample.pointerToSevenFrame).2.vm
        = .pointerInstance { data := 9, adopted := false }
    ∧ Sample.pointerType.read 7 Sample.pointerCell
        (constructReference Sample.registry Sample.pointerToSevenFrame).2.vm
        ≠ .pointerInstance { data := 7, adopted := false } := by
  refine ⟨rfl, pointerType_readInvertsWrite, rfl, rfl, rfl, rfl, ?_⟩
  intro h
  have h9 : Sample.pointerType.read 7 Sample.pointerCell
      (constructReference Sample.registry Sample.pointerToSevenFrame).2.vm
      = .pointerInstance { data := 9, adopted := false } := rfl
  rw [h9] at h
  injection h with h
  exact absurd h (by decide)

/-- C7, amended: for every type `T` that resolves to a descriptor whose read inverts its
write on a buffer of `size` bytes, and every value `v` for which the constructor reuses no
address and substitutes no value, when `calloc` returns storage and the write of `v` into
it is accepted, the returned reference is backed by that storage and reading it through
the descriptor yields `v`. -/
theorem round_trip (tryGet : JSValue → Option FFITypeMethodTable)
    (table : FFITypeMethodTable) (T v : JSValue) (vm : VM) (calls : List Call)
    (hT : tryGet T = some table) (hinv : ReadInvertsWrite table T)
    (hfresh : (resolveInitializer T v).handle = 0)
    (hself : (resolveInitializer T v).value = v)
    (halloc : (vm.calloc table.size 1).1 ≠ 0)
    (hacc : (table.write v (vm.calloc table.size 1).1 T (vm.calloc table.size 1).2).exception
        = none) :
    ((constructReference tryGet ⟨[T, v], vm, calls⟩).1.referencePointer.map
        PointerInstance.data) = some (vm.calloc table.size 1).1
    ∧ table.read (vm.calloc table.size 1).1 T
        (constructReference tryGet ⟨[T, v], vm, calls⟩).2.vm = v := by
  have key := constructReference_encode tryGet table T v vm calls hT hfresh
  rw [hself] at key
  have hblock := calloc_block vm table.size 1 halloc
  refine ⟨by rw [key]; rfl, ?_⟩
  rw [key]
  exact hinv (vm.calloc table.size 1).2 (vm.calloc table.size 1).1
    (List.replicate (table.size * 1) 0) v hblock (by simp) hacc

/-- C7, amended, at the byte type and the number 5. -/
theorem round_trip_witness :
    ((constructReference Sample.registry
        ⟨[Sample.byteCell, .number 5], Sample.vm0, []⟩).1.referencePointer.map
        PointerInstance.data) = some (Sample.vm0.calloc Sample.byteType.size 1).1
    ∧ Sample.byteType.read (Sample.vm0.calloc Sample.byteType.size 1).1 Sample.byteCell
        (constructReference Sample.registry ⟨[Sample.byteCell, .number 5], Sample.vm0, []⟩).2.vm
        = .number 5 :=
  round_trip Sample.registry Sample.byteType Sample.byteCell (.number 5) Sample.vm0 [] rfl
    byteType_readInvertsWrite rfl rfl (by decide) rfl

/-- C8, as stated, fails: for the registered byte type and a record whose pointer is null
the constructor calls `calloc`, which adds a block at address 9, and calls `write`, which
rejects the record, so the script caller sees a throw and no reference on the (null)
address of the record. -/
theorem record_aliasing_fails_at_null :
    Sample.registry Sample.byteCell = some Sample.byteType
    ∧ (constructReference Sample.registry Sample.nullRecordFrame).2.vm.heap
        = (9, [0]) :: Sample.vm0.heap
    ∧ (constructReference Sample.registry Sample.nullRecordFrame).2.calls
        = [Call.calloc 1 1 9,
            Call.write (.recordInstance { data := 0, adopted := true }) 9 Sample.byteCell]
    ∧ ((constructReference Sample.registry Sample.nullRecordFrame).1.referencePointer.map
        PointerInstance.data) = some 9
    ∧ callHostFunction (constructReference Sample.registry) Sample.nullRecordFrame
        = .error (.error Sample.rejectMessage) := by
  refine ⟨rfl, rfl, rfl, rfl, rfl⟩

/-- C8, amended: for every type `T` that resolves to a descriptor and every record `r`
whose pointer has a non-null address, the 2-argument call returns a reference of type `T`
whose pointer has the address and the adoption flag of the pointer of `r`; the frame is
left as it was (no allocation, no write, no exception raised), and to a script caller
without a pending exception the call yields that reference. -/
theorem record_aliasing (tryGet : JSValue → Option FFITypeMethodTable)
    (table : FFITypeMethodTable) (T : JSValue) (pointer : PointerInstance) (vm : VM)
    (calls : List Call) (hT : tryGet T = some table) (hp : pointer.data ≠ 0) :
    (constructReference tryGet ⟨[T, .recordInstance pointer], vm, calls⟩).1
        = .referenceInstance (.mk (some T)
            (some { data := pointer.data, adopted := pointer.isAdopted }) none)
    ∧ (constructReference tryGet ⟨[T, .recordInstance pointer], vm, calls⟩).2
        = ⟨[T, .recordInstance pointer], vm, calls⟩
    ∧ (vm.exception = none →
        construct tryGet vm [T, .recordInstance pointer]
          = .ok (.referenceInstance (.mk (some T)
              (some { data := pointer.data, adopted := pointer.isAdopted }) none))) := by
  have key : ∀ cs : List Call,
      constructReference tryGet ⟨[T, .recordInstance pointer], vm, cs⟩
      = (.referenceInstance (.mk (some T)
            (some { data := pointer.data, adopted := pointer.isAdopted }) none),
          ⟨[T, .recordInstance pointer], vm, cs⟩) :=
    fun cs => constructReference_alias tryGet table T (.recordInstance pointer) vm cs hT hp
  refine ⟨by rw [key], by rw [key], ?_⟩
  intro hvm
  simp [construct, callHostFunction, ReferenceConstructor.getConstructData, key, hvm]

/-- C8, amended, at the byte type and a record stored at address 7. -/
theorem record_aliasing_witness :
    (constructReference Sample.registry
        ⟨[Sample.byteCell, .recordInstance ⟨7, false⟩], Sample.vm0, []⟩).1
        = .referenceInstance (.mk (some Sample.byteCell)
            (some { data := 7, adopted := false }) none)
    ∧ (constructReference Sample.registry
        ⟨[Sample.byteCell, .recordInstance ⟨7, false⟩], Sample.vm0, []⟩).2
        = ⟨[Sample.byteCell, .recordInstance ⟨7, false⟩], Sample.vm0, []⟩
    ∧ (Sample.vm0.exception = none →
        construct Sample.registry Sample.vm0 [Sample.byteCell, .recordInstance ⟨7, false⟩]
          = .ok (.referenceInstance (.mk (some Sample.byteCell)
              (some { data := 7, adopted := false }) none))) :=
  record_aliasing Sample.registry Sample.byteType Sample.byteCell ⟨7, false⟩ Sample.vm0 []
    rfl (by decide)

/-- C9, as stated, fails: the byte type is no reference type and `nullReference` has a
pointer, whose address is null; the constructor then calls `calloc`, which adds a block at
address 9, and calls `write` with the reference, so the result is backed by address 9 and
not by the address of the pointer of the reference. -/
theorem resolved_reference_aliasing_fails_at_null :
    Sample.registry Sample.byteCell = some Sample.byteType
    ∧ Sample.byteCell.inheritsReferenceTypeInstance = false
    ∧ Sample.nullReference.pointer = some { data := 0, adopted := true }
    ∧ (constructReference Sample.registry Sample.nullReferenceFrame).2.vm.heap
        = (9, [0]) :: Sample.vm0.heap
    ∧ (constructReference Sample.registry Sample.nullReferenceFrame).2.calls
        = [Call.calloc 1 1 9,
            Call.write (.referenceInstance Sample.nullReference) 9 Sample.byteCell]
    ∧ ((constructReference Sample.registry Sample.nullReferenceFrame).1.referencePointer.map
        PointerInstance.data) = some 9 := by
  refine ⟨rfl, rfl, rfl, rfl, rfl, rfl⟩

/-- C9, amended: for every type `T` that resolves to a descriptor and is not a reference
type, and every reference `r` that has a pointer with a non-null address, the 2-argument
call returns a reference of type `T` whose pointer has the address and the adoption flag
of the pointer of `r`; the frame is left as it was (no allocation, no write, no exception
raised), and to a script caller without a pending exception the call yields that
reference. -/
theorem resolved_reference_aliasing (tryGet : JSValue → Option FFITypeMethodTable)
    (table : FFITypeMethodTable) (T : JSValue) (r : ReferenceInstance)
    (pointer : PointerInstance) (vm : VM) (calls : List Call)
    (hT : tryGet T = some table) (href : T.inheritsReferenceTypeInstance = false)
    (hr : r.pointer = some pointer) (hp : pointer.data ≠ 0) :
    (constructReference tryGet ⟨[T, .referenceInstance r], vm, calls⟩).1
        = .referenceInstance (.mk (some T)
            (some { data := pointer.data, adopted := pointer.isAdopted }) none)
    ∧ (constructReference tryGet ⟨[T, .referenceInstance r], vm, calls⟩).2
        = ⟨[T, .referenceInstance r], vm, calls⟩
    ∧ (vm.exception = none →
        construct tryGet vm [T, .referenceInstance r]
          = .ok (.referenceInstance (.mk (some T)
              (some { data := pointer.data, adopted := pointer.isAdopted }) none))) := by
  have hres : resolveInitializer T (.referenceInstance r)
      = { handle := pointer.data, adopted := pointer.isAdopted,
          value := .referenceInstance r } := by
    simp [resolveInitializer, href, hr]
  have key : ∀ cs : List Call,
      constructReference tryGet ⟨[T, .referenceInstance r], vm, cs⟩
      = (.referenceInstance (.mk (some T)
            (some { data := pointer.data, adopted := pointer.isAdopted }) none),
          ⟨[T, .referenceInstance r], vm, cs⟩) := by
    intro cs
    have h := constructReference_alias tryGet table T (.referenceInstance r) vm cs hT
      (by rw [hres]; exact hp)
    rw [hres] at h
    exact h
  refine ⟨by rw [key], by rw [key], ?_⟩
  intro hvm
  simp [construct, callHostFunction, ReferenceConstructor.getConstructData, key, hvm]

/-- C9, amended, at the byte type and a byte reference backed by address 7. -/
theorem resolved_reference_aliasing_witness :
    (constructReference Sample.registry
        ⟨[Sample.byteCell, .referenceInstance (.mk (some Sample.byteCell) (some ⟨7, true⟩) none)],
          Sample.vm0, []⟩).1
        = .referenceInstance (.mk (some Sample.byteCell)
            (some { data := 7, adopted := true }) none)
    ∧ (constructReference Sample.registry
        ⟨[Sample.byteCell, .referenceInstance (.mk (some Sample.byteCell) (some ⟨7, true⟩) none)],
          Sample.vm0, []⟩).2
        = ⟨[Sample.byteCell,
              .referenceInstance (.mk (some Sample.byteCell) (some ⟨7, true⟩) none)],
            Sample.vm0, []⟩
    ∧ (Sample.vm0.exception = none →
        construct Sample.registry Sample.vm0
            [Sample.byteCell,
              .referenceInstance (.mk (some Sample.byteCell) (some ⟨7, true⟩) none)]
          = .ok (.referenceInstance (.mk (some Sample.byteCell)
              (some { data := 7, adopted := true }) none))) :=
  resolved_reference_aliasing Sample.registry Sample.byteType Sample.byteCell
    (.mk (some Sample.byteCell) (some ⟨7, true⟩) none) ⟨7, true⟩ Sample.vm0 [] rfl rfl rfl
    (by decide)

/-- C10: for every type `T` that resolves to a descriptor and is a reference type, and
every reference `innerRef`, with or without a pointer, the cast chain leaves the handle
null and the value untouched; the 2-argument call makes one `calloc` and one `write`, the
value handed to `write` is `innerRef` itself, the pointer of the result is the adopted
address `calloc` returned, and the value returned is the same for every other reference
passed in its place. -/
theorem reference_to_reference_non_unwrap (tryGet : JSValue → Option FFITypeMethodTable)
    (table : FFITypeMethodTable) (T : JSValue) (innerRef : ReferenceInstance) (vm : VM)
    (calls : List Call) (hT : tryGet T = some table)
    (href : T.inheritsReferenceTypeInstance = true) :
    resolveInitializer T (.referenceInstance innerRef)
        = { handle := 0, adopted := true, value := .referenceInstance innerRef }
    ∧ constructReference tryGet ⟨[T, .referenceInstance innerRef], vm, calls⟩
        = (.referenceInstance (.mk (some T)
              (some { data := (vm.calloc table.size 1).1, adopted := true }) none),
            ⟨[T, .referenceInstance innerRef],
              table.write (.referenceInstance innerRef) (vm.calloc table.size 1).1 T
                (vm.calloc table.size 1).2,
              calls ++ [Call.calloc table.size 1 (vm.calloc table.size 1).1,
                Call.write (.referenceInstance innerRef) (vm.calloc table.size 1).1 T]⟩)
    ∧ (∀ other : ReferenceInstance,
        (constructReference tryGet ⟨[T, .referenceInstance other], vm, calls⟩).1
          = (constructReference tryGet ⟨[T, .referenceInstance innerRef], vm, calls⟩).1) := by
  have hres : ∀ r : ReferenceInstance, resolveInitializer T (.referenceInstance r)
      = { handle := 0, adopted := true, value := .referenceInstance r } := by
    intro r
    simp [resolveInitializer, href]
  have key : ∀ r : ReferenceInstance,
      constructReference tryGet ⟨[T, .referenceInstance r], vm, calls⟩
        = (.referenceInstance (.mk (some T)
              (some { data := (vm.calloc table.size 1).1, adopted := true }) none),
            ⟨[T, .referenceInstance r],
              table.write (.referenceInstance r) (vm.calloc table.size 1).1 T
                (vm.calloc table.size 1).2,
              calls ++ [Call.calloc table.size 1 (vm.calloc table.size 1).1,
                Call.write (.referenceInstance r) (vm.calloc table.size 1).1 T]⟩) := by
    intro r
    have h := constructReference_encode tryGet table T (.referenceInstance r) vm calls hT
      (by rw [hres])
    rw [hres] at h
    exact h
  refine ⟨hres innerRef, key innerRef, ?_⟩
  intro other
  rw [key other, key innerRef]

/-- C10 at the sample reference type and a byte reference backed by address 7. -/
theorem reference_to_reference_non_unwrap_witness :
    resolveInitializer Sample.referenceCell
        (.referenceInstance (.mk (some Sample.byteCell) (some ⟨7, false⟩) none))
        = { handle := 0, adopted := true,
            value := .referenceInstance (.mk (some Sample.byteCell) (some ⟨7, false⟩) none) }
    ∧ constructReference Sample.registry
        ⟨[Sample.referenceCell,
            .referenceInstance (.mk (some Sample.byteCell) (some ⟨7, false⟩) none)],
          Sample.vm0, []⟩
        = (.referenceInstance (.mk (some Sample.referenceCell)
              (some { data := (Sample.vm0.calloc Sample.referenceType.size 1).1,
                      adopted := true }) none),
            ⟨[Sample.referenceCell,
                .referenceInstance (.mk (some Sample.byteCell) (some ⟨7, false⟩) none)],
              Sample.referenceType.write
                (.referenceInstance (.mk (some Sample.byteCell) (some ⟨7, false⟩) none))
                (Sample.vm0.calloc Sample.referenceType.size 1).1 Sample.referenceCell
                (Sample.vm0.calloc Sample.referenceType.size 1).2,
              [] ++ [Call.calloc Sample.referenceType.size 1
                  (Sample.vm0.calloc Sample.referenceType.size 1).1,
                Call.write
                  (.referenceInstance (.mk (some Sample.byteCell) (some ⟨7, false⟩) none))
                  (Sample.vm0.calloc Sample.referenceType.size 1).1 Sample.referenceCell]⟩)
    ∧ (∀ other : ReferenceInstance,
        (constructReference Sample.registry
            ⟨[Sample.referenceCell, .referenceInstance other], Sample.vm0, []⟩).1
          = (constructReference Sample.registry
              ⟨[Sample.referenceCell,
                  .referenceInstance (.mk (some Sample.byteCell) (some ⟨7, false⟩) none)],
                Sample.vm0, []⟩).1) :=
  reference_to_reference_non_unwrap Sample.registry Sample.referenceType Sample.referenceCell
    (.mk (some Sample.byteCell) (some ⟨7, false⟩) none) Sample.vm0 [] rfl rfl

/-! ## Further facts about the host function -/

/-- What the host function does for a valid type when the argument count is not 2: one
`calloc`, no `write`, and an adopted reference on the returned address. -/
theorem constructReference_noInitializer (tryGet : JSValue → Option FFITypeMethodTable)
    (table : FFITypeMethodTable) (execState : ExecState)
    (hT : tryGet (execState.argument 0) = some table)
    (hcount : execState.argumentCount ≠ 2) :
    constructReference tryGet execState
      = (.referenceInstance (.mk (some (execState.argument 0))
            (some { data := (execState.vm.calloc table.size 1).1, adopted := true }) none),
          ⟨execState.arguments, (execState.vm.calloc table.size 1).2,
            execState.calls
              ++ [Call.calloc table.size 1 (execState.vm.calloc table.size 1).1]⟩) := by
  simp [constructReference, hT, hcount, wrapHandle, ReferenceInstance.create,
    pointerInstanceForPointer, PointerInstance.setAdopted, ExecState.calloc]

/-- What the host function does for a first argument that is no type when the argument
count is not 2: an untyped reference on the first argument, the frame left as it was. -/
theorem constructReference_untyped (tryGet : JSValue → Option FFITypeMethodTable)
    (execState : ExecState) (hT : tryGet (execState.argument 0) = none)
    (hcount : execState.argumentCount ≠ 2) :
    constructReference tryGet execState
      = (.referenceInstance (.mk none none (some (execState.argument 0))), execState) := by
  simp [constructReference, hT, hcount, ReferenceInstance.createUntyped]

/-- The three ways the host function can end: a typed reference with a pointer and no
stored value, an untyped reference with the first argument as stored value, or the
invalid-type error left pending. -/
theorem constructReference_shape (tryGet : JSValue → Option FFITypeMethodTable)
    (execState : ExecState) :
    (∃ table p, tryGet (execState.argument 0) = some table
        ∧ (constructReference tryGet execState).1
          = .referenceInstance (.mk (some (execState.argument 0)) (some p) none))
    ∨ (tryGet (execState.argument 0) = none
        ∧ (constructReference tryGet execState).1
          = .referenceInstance (.mk none none (some (execState.argument 0))))
    ∨ (tryGet (execState.argument 0) = none
        ∧ (constructReference tryGet execState).2.vm.exception
          = some (.error notAValidTypeMessage)) := by
  cases hT : tryGet (execState.argument 0) with
  | none =>
    by_cases hcount : execState.argumentCount = 2
    · right; right
      simp [constructReference, hT, hcount, throwVMError, createError]
    · right; left
      rw [constructReference_untyped tryGet execState hT hcount]
      exact ⟨rfl, rfl⟩
  | some table =>
    left
    by_cases hcount : execState.argumentCount = 2
    · by_cases hnull : (resolveInitializer (execState.argument 0)
          (execState.uncheckedArgument 1)).handle = 0
      · exact ⟨table, _, rfl, by
          simp [constructReference, hT, hcount, hnull, wrapHandle, ReferenceInstance.create]; rfl⟩
      · exact ⟨table, _, rfl, by
          simp [constructReference, hT, hcount, hnull, wrapHandle, ReferenceInstance.create]; rfl⟩
    · rw [constructReference_noInitializer tryGet table execState hT hcount]
      exact ⟨table, _, rfl, rfl⟩

/-- The value read from the `value` property of a reference is never that reference. -/
theorem get_ne_self (r : ReferenceInstance) : r.get ≠ .referenceInstance r := by
  intro h
  cases r with
  | mk t p v =>
    cases v with
    | none => simp [ReferenceInstance.get, ReferenceInstance.value] at h
    | some v =>
      simp only [ReferenceInstance.get, ReferenceInstance.value] at h
      have hs := congrArg sizeOf h
      simp at hs
      omega

/-! ## The claims, continued -/

/-- C12: every value a script caller gets from the constructor is a reference that holds
exactly one of a pointer and a stored raw value: when the first argument resolves to a
descriptor it has that argument as its type, a pointer and no stored value; otherwise it
has no type, no pointer, and the first argument as its stored value. -/
theorem type_handle_pairing (tryGet : JSValue → Option FFITypeMethodTable) (vm : VM)
    (arguments : List JSValue) (result : JSValue)
    (h : construct tryGet vm arguments = .ok result) :
    ∃ r : ReferenceInstance, result = .referenceInstance r
      ∧ ((r.pointer.isSome = true ∧ r.value = none)
          ∨ (r.pointer = none ∧ r.value.isSome = true))
      ∧ (∀ table, tryGet (arguments.getD 0 .undefined) = some table →
          r.innerType = some (arguments.getD 0 .undefined)
            ∧ r.pointer.isSome = true ∧ r.value = none)
      ∧ (tryGet (arguments.getD 0 .undefined) = none →
          r.innerType = none ∧ r.pointer = none
            ∧ r.value = some (arguments.getD 0 .undefined)) := by
  have hshape := constructReference_shape tryGet ⟨arguments, vm, []⟩
  simp only [ExecState.argument] at hshape
  unfold construct callHostFunction ReferenceConstructor.getConstructData at h
  rcases hshape with ⟨table, p, hT, hret⟩ | ⟨hT, hret⟩ | ⟨hT, hexc⟩
  · cases hexc : (constructReference tryGet ⟨arguments, vm, []⟩).2.vm.exception with
    | some e => simp [hexc] at h
    | none =>
      simp only [hexc, hret, Except.ok.injEq] at h
      refine ⟨_, h.symm, Or.inl ⟨rfl, rfl⟩, fun _ _ => ⟨rfl, rfl, rfl⟩, ?_⟩
      intro hnone
      rw [hT] at hnone
      cases hnone
  · cases hexc : (constructReference tryGet ⟨arguments, vm, []⟩).2.vm.exception with
    | some e => simp [hexc] at h
    | none =>
      simp only [hexc, hret, Except.ok.injEq] at h
      refine ⟨_, h.symm, Or.inr ⟨rfl, rfl⟩, ?_, fun _ => ⟨rfl, rfl, rfl⟩⟩
      intro table hsome
      rw [hT] at hsome
      cases hsome
  · simp [hexc] at h

/-- C12 at the call `Reference(byteCell, 5)` on the sample registry. -/
theorem type_handle_pairing_witness :
    ∃ r : ReferenceInstance,
      JSValue.referenceInstance (.mk (some Sample.byteCell)
          (some { data := 9, adopted := true }) none) = .referenceInstance r
      ∧ ((r.pointer.isSome = true ∧ r.value = none)
          ∨ (r.pointer = none ∧ r.value.isSome = true))
      ∧ (∀ table,
          Sample.registry ([Sample.byteCell, JSValue.number 5].getD 0 .undefined) = some table →
          r.innerType = some ([Sample.byteCell, JSValue.number 5].getD 0 .undefined)
            ∧ r.pointer.isSome = true ∧ r.value = none)
      ∧ (Sample.registry ([Sample.byteCell, JSValue.number 5].getD 0 .undefined) = none →
          r.innerType = none ∧ r.pointer = none
            ∧ r.value = some ([Sample.byteCell, JSValue.number 5].getD 0 .undefined)) :=
  type_handle_pairing Sample.registry Sample.vm0 [Sample.byteCell, .number 5] _ rfl

/-- C13: the direct call and the call with new are given the same host function,
`constructReference`, and so for every virtual machine and every argument list the two
forms produce the same value or throw the same error. -/
theorem call_and_construct_equivalent (tryGet : JSValue → Option FFITypeMethodTable) :
    ReferenceConstructor.getCallData tryGet = ReferenceConstructor.getConstructData tryGet
    ∧ ReferenceConstructor.getCallData tryGet = constructReference tryGet
    ∧ (∀ (execState : ExecState),
        ReferenceConstructor.getCallData tryGet execState
          = ReferenceConstructor.getConstructData tryGet execState)
    ∧ (∀ (vm : VM) (arguments : List JSValue),
        call tryGet vm arguments = construct tryGet vm arguments) := by
  refine ⟨rfl, rfl, fun _ => rfl, fun _ _ => rfl⟩

/-- C14: for every type `T` that resolves to a descriptor and is not a reference type, and
every reference `r` without a pointer, when `calloc` returns storage the 2-argument call
makes one `calloc(size, 1)`, whose block of `size` zero bytes starts where no block started
before, and one `write` into that block with the value read from the `value` property of
`r`, which is not `r` itself; the returned reference is backed by that block and is
adopted. -/
theorem deferred_value_substitution (tryGet : JSValue → Option FFITypeMethodTable)
    (table : FFITypeMethodTable) (T : JSValue) (r : ReferenceInstance) (vm : VM)
    (calls : List Call) (hT : tryGet T = some table)
    (href : T.inheritsReferenceTypeInstance = false) (hr : r.pointer = none)
    (halloc : (vm.calloc table.size 1).1 ≠ 0) :
    constructReference tryGet ⟨[T, .referenceInstance r], vm, calls⟩
        = (.referenceInstance (.mk (some T)
              (some { data := (vm.calloc table.size 1).1, adopted := true }) none),
            ⟨[T, .referenceInstance r],
              table.write r.get (vm.calloc table.size 1).1 T (vm.calloc table.size 1).2,
              calls ++ [Call.calloc table.size 1 (vm.calloc table.size 1).1,
                Call.write r.get (vm.calloc table.size 1).1 T]⟩)
    ∧ (vm.calloc table.size 1).2.block (vm.calloc table.size 1).1
        = some (List.replicate table.size 0)
    ∧ vm.block (vm.calloc table.size 1).1 = none
    ∧ r.get ≠ .referenceInstance r := by
  have hres : resolveInitializer T (.referenceInstance r)
      = { handle := 0, adopted := true, value := r.get } := by
    simp [resolveInitializer, href, hr]
  have key := constructReference_encode tryGet table T (.referenceInstance r) vm calls hT
    (by rw [hres])
  rw [hres] at key
  have hblock := calloc_block vm table.size 1 halloc
  rw [Nat.mul_one] at hblock
  exact ⟨key, hblock, calloc_fresh vm table.size 1 halloc, get_ne_self r⟩

/-- C14 at the byte type and the untyped reference that holds 5. -/
theorem deferred_value_substitution_witness :
    constructReference Sample.registry
        ⟨[Sample.byteCell, .referenceInstance Sample.unresolvedReference], Sample.vm0, []⟩
        = (.referenceInstance (.mk (some Sample.byteCell)
              (some { data := (Sample.vm0.calloc Sample.byteType.size 1).1, adopted := true })
              none),
            ⟨[Sample.byteCell, .referenceInstance Sample.unresolvedReference],
              Sample.byteType.write Sample.unresolvedReference.get
                (Sample.vm0.calloc Sample.byteType.size 1).1 Sample.byteCell
                (Sample.vm0.calloc Sample.byteType.size 1).2,
              [] ++ [Call.calloc Sample.byteType.size 1
                  (Sample.vm0.calloc Sample.byteType.size 1).1,
                Call.write Sample.unresolvedReference.get
                  (Sample.vm0.calloc Sample.byteType.size 1).1 Sample.byteCell]⟩)
    ∧ (Sample.vm0.calloc Sample.byteType.size 1).2.block
          (Sample.vm0.calloc Sample.byteType.size 1).1
        = some (List.replicate Sample.byteType.size 0)
    ∧ Sample.vm0.block (Sample.vm0.calloc Sample.byteType.size 1).1 = none
    ∧ Sample.unresolvedReference.get ≠ .referenceInstance Sample.unresolvedReference :=
  deferred_value_substitution Sample.registry Sample.byteType Sample.byteCell
    Sample.unresolvedReference Sample.vm0 [] rfl rfl rfl (by decide)

/-- C15, as stated, fails: the sample reference type is a reference type and the value is
a reference, yet the constructor calls `calloc` and `write`, and the reference it returns
has a pointer, to the new block at address 9, in which the address 7 was written. -/
theorem reference_to_reference_handle_is_resolved :
    Sample.registry Sample.referenceCell = some Sample.referenceType
    ∧ Sample.referenceCell.inheritsReferenceTypeInstance = true
    ∧ (constructReference Sample.registry Sample.referenceToReferenceFrame).1.referencePointer
        = some { data := 9, adopted := true }
    ∧ (constructReference Sample.registry Sample.referenceToReferenceFrame).2.calls
        = [Call.calloc 1 1 9,
            Call.write (.referenceInstance Sample.referenceToSeven) 9 Sample.referenceCell]
    ∧ (constructReference Sample.registry Sample.referenceToReferenceFrame).2.vm.heap
        = (9, [7]) :: Sample.vm0.heap
    ∧ (constructReference Sample.registry Sample.referenceToReferenceFrame).2.vm.exception
        = none := by
  refine ⟨rfl, rfl, rfl, rfl, rfl, rfl⟩

/-- C15, amended: in a 2-argument call whose type `T` resolves to a descriptor and is a
reference type and whose value is a reference, no handle is taken from the value; the
constructor then allocates, so when `calloc` returns storage and the write of the
reference into it leaves no exception pending, the script caller gets a reference of type
`T` whose pointer is resolved: it is adopted and has the non-null address `calloc`
returned. -/
theorem reference_to_reference_allocates (tryGet : JSValue → Option FFITypeMethodTable)
    (table : FFITypeMethodTable) (T : JSValue) (innerRef : ReferenceInstance) (vm : VM)
    (hT : tryGet T = some table) (href : T.inheritsReferenceTypeInstance = true)
    (halloc : (vm.calloc table.size 1).1 ≠ 0)
    (hacc : (table.write (.referenceInstance innerRef) (vm.calloc table.size 1).1 T
        (vm.calloc table.size 1).2).exception = none) :
    (resolveInitializer T (.referenceInstance innerRef)).handle = 0
    ∧ construct tryGet vm [T, .referenceInstance innerRef]
        = .ok (.referenceInstance (.mk (some T)
            (some { data := (vm.calloc table.size 1).1, adopted := true }) none))
    ∧ ((constructReference tryGet
          ⟨[T, .referenceInstance innerRef], vm, []⟩).1.referencePointer.map
        PointerInstance.data) = some (vm.calloc table.size 1).1
    ∧ (vm.calloc table.size 1).1 ≠ 0
    ∧ (constructReference tryGet ⟨[T, .referenceInstance innerRef], vm, []⟩).2.calls
        = [Call.calloc table.size 1 (vm.calloc table.size 1).1,
            Call.write (.referenceInstance innerRef) (vm.calloc table.size 1).1 T] := by
  have hres : resolveInitializer T (.referenceInstance innerRef)
      = { handle := 0, adopted := true, value := .referenceInstance innerRef } := by
    simp [resolveInitializer, href]
  have key := constructReference_encode tryGet table T (.referenceInstance innerRef) vm []
    hT (by rw [hres])
  rw [hres] at key
  refine ⟨by rw [hres], ?_, by rw [key]; rfl, halloc, by rw [key]; rfl⟩
  simp [construct, callHostFunction, ReferenceConstructor.getConstructData, key, hacc]

/-- C15, amended, at the sample reference type and the byte reference backed by
address 7. -/
theorem reference_to_reference_allocates_witness :
    (resolveInitializer Sample.referenceCell
        (.referenceInstance Sample.referenceToSeven)).handle = 0
    ∧ construct Sample.registry Sample.vm0
          [Sample.referenceCell, .referenceInstance Sample.referenceToSeven]
        = .ok (.referenceInstance (.mk (some Sample.referenceCell)
            (some { data := (Sample.vm0.calloc Sample.referenceType.size 1).1, adopted := true })
            none))
    ∧ ((constructReference Sample.registry
          ⟨[Sample.referenceCell, .referenceInstance Sample.referenceToSeven],
            Sample.vm0, []⟩).1.referencePointer.map
        PointerInstance.data) = some (Sample.vm0.calloc Sample.referenceType.size 1).1
    ∧ (Sample.vm0.calloc Sample.referenceType.size 1).1 ≠ 0
    ∧ (constructReference Sample.registry
        ⟨[Sample.referenceCell, .referenceInstance Sample.referenceToSeven],
          Sample.vm0, []⟩).2.calls
        = [Call.calloc Sample.referenceType.size 1
              (Sample.vm0.calloc Sample.referenceType.size 1).1,
            Call.write (.referenceInstance Sample.referenceToSeven)
              (Sample.vm0.calloc Sample.referenceType.size 1).1 Sample.referenceCell] :=
  reference_to_reference_allocates Sample.registry Sample.referenceType Sample.referenceCell
    Sample.referenceToSeven Sample.vm0 rfl rfl (by decide) rfl

/-- C16: for every type `T` that resolves to a descriptor and every initializer that is a
pointer wrapper, a record, or, when `T` is not a reference type, a reference with a
pointer, where the pointer `p` involved has a non-null address, the 2-argument call
invokes no collaborator (no `write`, no `calloc`) and returns the virtual machine as it
was, so every block of the heap, the one at the aliased address included, keeps its
bytes; the returned reference is backed by the address of `p`. -/
theorem aliasing_performs_no_write (tryGet : JSValue → Option FFITypeMethodTable)
    (table : FFITypeMethodTable) (T v : JSValue) (p : PointerInstance) (vm : VM)
    (calls : List Call) (hT : tryGet T = some table) (hp : p.data ≠ 0)
    (hinit : v = .pointerInstance p ∨ v = .recordInstance p
      ∨ (T.inheritsReferenceTypeInstance = false
          ∧ ∃ r : ReferenceInstance, v = .referenceInstance r ∧ r.pointer = some p)) :
    (constructReference tryGet ⟨[T, v], vm, calls⟩).2.calls = calls
    ∧ (constructReference tryGet ⟨[T, v], vm, calls⟩).2.vm = vm
    ∧ (∀ address : Nat,
        (constructReference tryGet ⟨[T, v], vm, calls⟩).2.vm.block address = vm.block address)
    ∧ ((constructReference tryGet ⟨[T, v], vm, calls⟩).1.referencePointer.map
        PointerInstance.data) = some p.data := by
  have hres : (resolveInitializer T v).handle = p.data := by
    rcases hinit with rfl | rfl | ⟨href, r, rfl, hr⟩
    · rfl
    · rfl
    · simp [resolveInitializer, href, hr]
  have key := constructReference_alias tryGet table T v vm calls hT (by rw [hres]; exact hp)
  rw [hres] at key
  refine ⟨by rw [key], by rw [key], ?_, by rw [key]; rfl⟩
  intro address
  rw [key]

/-- C16 at the byte type and a record stored at address 7. -/
theorem aliasing_performs_no_write_witness :
    (constructReference Sample.registry
        ⟨[Sample.byteCell, .recordInstance ⟨7, false⟩], Sample.vm0, []⟩).2.calls = []
    ∧ (constructReference Sample.registry
        ⟨[Sample.byteCell, .recordInstance ⟨7, false⟩], Sample.vm0, []⟩).2.vm = Sample.vm0
    ∧ (∀ address : Nat,
        (constructReference Sample.registry
          ⟨[Sample.byteCell, .recordInstance ⟨7, false⟩], Sample.vm0, []⟩).2.vm.block address
          = Sample.vm0.block address)
    ∧ ((constructReference Sample.registry
          ⟨[Sample.byteCell, .recordInstance ⟨7, false⟩], Sample.vm0, []⟩).1.referencePointer.map
        PointerInstance.data) = some (PointerInstance.data ⟨7, false⟩) :=
  aliasing_performs_no_write Sample.registry Sample.byteType Sample.byteCell
    (.recordInstance ⟨7, false⟩) ⟨7, false⟩ Sample.vm0 [] rfl (by decide) (Or.inr (Or.inl rfl))

/-- C17: for every type `T` that resolves to a descriptor and every pointer wrapper or
record whose pointer `p` has the null address, when `calloc` returns storage the
2-argument call makes one `calloc(size, 1)`, whose block of `size` zero bytes starts where
no block started before, and one `write` into that block with the wrapper itself as the
value; the returned reference is backed by that block and its adoption flag is the flag
of `p`. -/
theorem null_address_initializer_allocates (tryGet : JSValue → Option FFITypeMethodTable)
    (table : FFITypeMethodTable) (T v : JSValue) (p : PointerInstance) (vm : VM)
    (calls : List Call) (hT : tryGet T = some table) (hp : p.data = 0)
    (hinit : v = .pointerInstance p ∨ v = .recordInstance p)
    (halloc : (vm.calloc table.size 1).1 ≠ 0) :
    constructReference tryGet ⟨[T, v], vm, calls⟩
        = (.referenceInstance (.mk (some T)
              (some { data := (vm.calloc table.size 1).1, adopted := p.isAdopted }) none),
            ⟨[T, v],
              table.write v (vm.calloc table.size 1).1 T (vm.calloc table.size 1).2,
              calls ++ [Call.calloc table.size 1 (vm.calloc table.size 1).1,
                Call.write v (vm.calloc table.size 1).1 T]⟩)
    ∧ (vm.calloc table.size 1).2.block (vm.calloc table.size 1).1
        = some (List.replicate table.size 0)
    ∧ vm.block (vm.calloc table.size 1).1 = none := by
  have hres : resolveInitializer T v
      = { handle := 0, adopted := p.isAdopted, value := v } := by
    rcases hinit with rfl | rfl
    · simp [resolveInitializer, hp]
    · simp [resolveInitializer, hp]
  have key := constructReference_encode tryGet table T v vm calls hT (by rw [hres])
  rw [hres] at key
  have hblock := calloc_block vm table.size 1 halloc
  rw [Nat.mul_one] at hblock
  exact ⟨key, hblock, calloc_fresh vm table.size 1 halloc⟩

/-- C17 at the pointer type and the null pointer wrapper, which is not adopted. -/
theorem null_address_initializer_allocates_witness :
    constructReference Sample.registry
        ⟨[Sample.pointerCell, .pointerInstance Sample.nullPointer], Sample.vm0, []⟩
        = (.referenceInstance (.mk (some Sample.pointerCell)
              (some { data := (Sample.vm0.calloc Sample.pointerType.size 1).1,
                      adopted := Sample.nullPointer.isAdopted }) none),
            ⟨[Sample.pointerCell, .pointerInstance Sample.nullPointer],
              Sample.pointerType.write (.pointerInstance Sample.nullPointer)
                (Sample.vm0.calloc Sample.pointerType.size 1).1 Sample.pointerCell
                (Sample.vm0.calloc Sample.pointerType.size 1).2,
              [] ++ [Call.calloc Sample.pointerType.size 1
                  (Sample.vm0.calloc Sample.pointerType.size 1).1,
                Call.write (.pointerInstance Sample.nullPointer)
                  (Sample.vm0.calloc Sample.pointerType.size 1).1 Sample.pointerCell]⟩)
    ∧ (Sample.vm0.calloc Sample.pointerType.size 1).2.block
          (Sample.vm0.calloc Sample.pointerType.size 1).1
        = some (List.replicate Sample.pointerType.size 0)
    ∧ Sample.vm0.block (Sample.vm0.calloc Sample.pointerType.size 1).1 = none :=
  null_address_initializer_allocates Sample.registry Sample.pointerType Sample.pointerCell
    (.pointerInstance Sample.nullPointer) Sample.nullPointer Sample.vm0 [] rfl rfl
    (Or.inl rfl) (by decide)

/-- C18: for every call with three or more arguments, the host function returns the value,
leaves the virtual machine and records the collaborator calls of the 1-argument call with
the same first argument, and the script caller sees the same outcome: for a first argument
that resolves to a descriptor, one `calloc(size, 1)`, no `write`, and an adopted reference
on the returned address; otherwise an untyped reference that holds the first argument, with
nothing allocated or written. -/
theorem extra_arguments_ignored (tryGet : JSValue → Option FFITypeMethodTable)
    (x y z : JSValue) (rest : List JSValue) (vm : VM) (calls : List Call) :
    (constructReference tryGet ⟨x :: y :: z :: rest, vm, calls⟩).1
        = (constructReference tryGet ⟨[x], vm, calls⟩).1
    ∧ (constructReference tryGet ⟨x :: y :: z :: rest, vm, calls⟩).2.vm
        = (constructReference tryGet ⟨[x], vm, calls⟩).2.vm
    ∧ (constructReference tryGet ⟨x :: y :: z :: rest, vm, calls⟩).2.calls
        = (constructReference tryGet ⟨[x], vm, calls⟩).2.calls
    ∧ construct tryGet vm (x :: y :: z :: rest) = construct tryGet vm [x]
    ∧ (∀ table, tryGet x = some table →
        constructReference tryGet ⟨x :: y :: z :: rest, vm, calls⟩
          = (.referenceInstance (.mk (some x)
                (some { data := (vm.calloc table.size 1).1, adopted := true }) none),
              ⟨x :: y :: z :: rest, (vm.calloc table.size 1).2,
                calls ++ [Call.calloc table.size 1 (vm.calloc table.size 1).1]⟩))
    ∧ (tryGet x = none →
        constructReference tryGet ⟨x :: y :: z :: rest, vm, calls⟩
          = (.referenceInstance (.mk none none (some x)), ⟨x :: y :: z :: rest, vm, calls⟩)) := by
  have hmany : ∀ cs : List Call,
      (⟨x :: y :: z :: rest, vm, cs⟩ : ExecState).argumentCount ≠ 2 := by
    intro cs
    simp [ExecState.argumentCount]
  have hone : ∀ cs : List Call, (⟨[x], vm, cs⟩ : ExecState).argumentCount ≠ 2 := by
    intro cs
    simp [ExecState.argumentCount]
  cases hT : tryGet x with
  | none =>
    have kmany := fun cs => constructReference_untyped tryGet ⟨x :: y :: z :: rest, vm, cs⟩
      (by simpa [ExecState.argument] using hT) (hmany cs)
    have kone := fun cs => constructReference_untyped tryGet ⟨[x], vm, cs⟩
      (by simpa [ExecState.argument] using hT) (hone cs)
    simp only [ExecState.argument, List.getD_cons_zero] at kmany kone
    refine ⟨by rw [kmany, kone], by rw [kmany, kone], by rw [kmany, kone], ?_, ?_,
      fun _ => kmany calls⟩
    · simp [construct, callHostFunction, ReferenceConstructor.getConstructData, kmany, kone]
    · intro table hsome
      cases hsome
  | some table =>
    have kmany := fun cs => constructReference_noInitializer tryGet table
      ⟨x :: y :: z :: rest, vm, cs⟩ (by simpa [ExecState.argument] using hT) (hmany cs)
    have kone := fun cs => constructReference_noInitializer tryGet table ⟨[x], vm, cs⟩
      (by simpa [ExecState.argument] using hT) (hone cs)
    simp only [ExecState.argument, List.getD_cons_zero] at kmany kone
    refine ⟨by rw [kmany, kone], by rw [kmany, kone], by rw [kmany, kone], ?_, ?_, ?_⟩
    · simp [construct, callHostFunction, ReferenceConstructor.getConstructData, kmany, kone]
    · intro table2 hsome
      cases hsome
      exact kmany calls
    · intro hnone
      cases hnone

/-- C18 at the call `Reference(byteCell, 5, 6)` on the sample registry. -/
theorem extra_arguments_ignored_witness :
    construct Sample.registry Sample.vm0 [Sample.byteCell, .number 5, .number 6]
        = construct Sample.registry Sample.vm0 [Sample.byteCell]
    ∧ construct Sample.registry Sample.vm0 [Sample.byteCell, .number 5, .number 6]
        = .ok (.referenceInstance (.mk (some Sample.byteCell)
            (some { data := 9, adopted := true }) none)) :=
  ⟨(extra_arguments_ignored Sample.registry Sample.byteCell (.number 5) (.number 6) []
      Sample.vm0 []).2.2.2.1, rfl⟩

end NativeScript
